import Mathlib

/-!
Verification of the QR-code attendance check-in flow and related routes of a
role-based school attendance web application (Express + Prisma backend).

The embedding follows the backend source:
  * `backend/src/routes/attendance.js` — POST /generate-qr, POST /scan,
    GET /class/:classId, GET /student,
  * `backend/src/routes/users.js` — DELETE /users/:id,
  * `backend/src/middleware/auth.js` — authorizeRoles.

Times are modelled as milliseconds since the epoch (`Nat`), matching the
JavaScript `Date` values the handlers compare.  `setHours(0,0,0,0)` on "now"
is modelled as truncation to the enclosing multiple of `msPerDay` (the fixed
local-midnight boundary; the local-timezone offset is absorbed into the
choice of epoch).
-/

/-- Milliseconds in one day; the handler's `24 * 60 * 60 * 1000`. -/
def msPerDay : Nat := 24 * 60 * 60 * 1000

/-- The fixed local-day boundary: `today.setHours(0,0,0,0)` applied to `t`. -/
def midnightOf (t : Nat) : Nat := t - t % msPerDay

/-- A stored check-in token row (`prisma.qRCode`): the opaque code string,
the class it is bound to, and its absolute expiry in ms. -/
structure QRCodeRec where
  code : String
  classId : String
  expiresAt : Nat
deriving Repr, DecidableEq

/-- An Enrollment row: join between a StudentProfile and a Class. -/
structure Enrollment where
  studentId : String
  classId : String
deriving Repr, DecidableEq

/-- An Attendance row: student, class, timestamp (`date`), status string
(`PRESENT`/`ABSENT`/`LATE`), and the redeemed token string when the row was
created by a scan (`qrCode` column, absent on seeded rows). -/
structure AttendanceRecord where
  studentId : String
  classId : String
  date : Nat
  status : String
  qrCode : Option String
deriving Repr, DecidableEq

/-- The slice of the persistent store the attendance routes touch. -/
structure DB where
  qrCodes : List QRCodeRec
  enrollments : List Enrollment
  attendance : List AttendanceRecord
deriving Repr, DecidableEq

/-- `prisma.qRCode.findUnique({ where: { code } })`. -/
def findQr (db : DB) (code : String) : Option QRCodeRec :=
  db.qrCodes.find? (fun q => q.code == code)

/-- `prisma.enrollment.findUnique({ where: { studentId_classId } })` viewed as
a Boolean: does an enrollment row for this (student, class) exist. -/
def isEnrolled (db : DB) (sid cid : String) : Bool :=
  db.enrollments.any (fun e => e.studentId == sid && e.classId == cid)

/-- The `findFirst` filter of the already-marked check: a row of this student
and class whose `date` lies in `[midnightOf now, midnightOf now + msPerDay)`. -/
def inTodayWindow (now : Nat) (a : AttendanceRecord) (sid cid : String) : Bool :=
  a.studentId == sid && a.classId == cid &&
    decide (midnightOf now ≤ a.date) && decide (a.date < midnightOf now + msPerDay)

/-- `prisma.attendance.findFirst` of the scan handler: is some attendance row
of (student, class) already inside today's fixed-midnight window. -/
def hasRecordToday (db : DB) (sid cid : String) (now : Nat) : Bool :=
  db.attendance.any (fun a => inTodayWindow now a sid cid)

/-- Outcome of POST /attendance/scan, one constructor per response branch. -/
inductive ScanResult where
  /-- Status 400 "Invalid QR code": no token row matches the scanned string. -/
  | invalidQr : ScanResult
  /-- Status 400 "QR code expired": `new Date() > qrCodeRecord.expiresAt`. -/
  | expired : ScanResult
  /-- Status 403 "You are not enrolled in this class". -/
  | notEnrolled : ScanResult
  /-- Status 400 "Attendance already marked". -/
  | alreadyMarked : ScanResult
  /-- Status 200 with the created attendance row. -/
  | success (rec : AttendanceRecord) : ScanResult
deriving Repr, DecidableEq

/-- The write phase of the scan handler: `prisma.attendance.create` with
`date: new Date()`, `status: 'PRESENT'`, `qrCode` set to the scanned string. -/
def scanInsert (db : DB) (sid cid : String) (now : Nat) (code : String) :
    AttendanceRecord × DB :=
  let row : AttendanceRecord := ⟨sid, cid, now, "PRESENT", some code⟩
  (row, { db with attendance := db.attendance ++ [row] })

/-- The read phase of the scan handler on token `qr`: `true` when every guard
(expiry, enrollment, already-marked `findFirst`) lets the request through to
the `create` call. -/
def scanCheckPasses (db : DB) (sid : String) (qr : QRCodeRec) (now : Nat) : Bool :=
  !(decide (qr.expiresAt < now)) && isEnrolled db sid qr.classId &&
    !(hasRecordToday db sid qr.classId now)

/-- POST /attendance/scan for an authenticated student `sid` scanning string
`code` at time `now`: the guards in source order, then the insert. -/
def scan (db : DB) (sid code : String) (now : Nat) : ScanResult × DB :=
  match findQr db code with
  | none => (ScanResult.invalidQr, db)
  | some qr =>
    if qr.expiresAt < now then (ScanResult.expired, db)
    else if !(isEnrolled db sid qr.classId) then (ScanResult.notEnrolled, db)
    else if hasRecordToday db sid qr.classId now then (ScanResult.alreadyMarked, db)
    else
      let r := scanInsert db sid qr.classId now code
      (ScanResult.success r.1, r.2)

/-- Number of attendance rows of (student, class) inside the fixed-midnight
window of `now`. -/
def countToday (db : DB) (sid cid : String) (now : Nat) : Nat :=
  (db.attendance.filter (fun a => inTodayWindow now a sid cid)).length

/-- The middleware `authorizeRoles(...roles)`: `roles.includes(req.user.role)`;
on failure it answers 403 and the handler never runs. -/
def authorizeRoles (allowed : List String) (userRole : String) : Bool :=
  allowed.contains userRole

/-- Outcome of the full /scan endpoint including its middleware chain. -/
inductive ScanEndpointResult where
  /-- Status 403 "Insufficient permissions" from `authorizeRoles('STUDENT')`:
  the handler body (token lookup, enrollment check, create) never executes. -/
  | forbidden : ScanEndpointResult
  /-- The handler ran and produced a `ScanResult`. -/
  | handled (r : ScanResult) : ScanEndpointResult
deriving Repr, DecidableEq

/-- POST /attendance/scan as routed: `authenticateToken` has resolved the
user's role; `authorizeRoles('STUDENT')` runs before the handler body. -/
def scanEndpoint (userRole : String) (db : DB) (sid code : String) (now : Nat) :
    ScanEndpointResult × DB :=
  if authorizeRoles ["STUDENT"] userRole then
    let r := scan db sid code now
    (ScanEndpointResult.handled r.1, r.2)
  else (ScanEndpointResult.forbidden, db)

/-- The token-string construction of POST /attendance/generate-qr:
`` `${classId}-${Date.now()}-${Math.random().toString(36).substr(2, 9)}` ``.
`Date.now()` is the caller-visible wall clock passed in as `nowMs`; the
`Math.random()` base-36 suffix (output of the non-cryptographic JS PRNG) is
passed in as `randSuffix`. -/
def generateQrData (classId : String) (nowMs : Nat) (randSuffix : String) : String :=
  classId ++ "-" ++ toString nowMs ++ "-" ++ randSuffix

/-- POST /attendance/generate-qr after its access checks: build the code
string and persist it with `expiresAt = now + 15 minutes`. -/
def issueQr (db : DB) (classId : String) (nowMs : Nat) (randSuffix : String) :
    QRCodeRec × DB :=
  let qr : QRCodeRec :=
    ⟨generateQrData classId nowMs randSuffix, classId, nowMs + 15 * 60 * 1000⟩
  (qr, { db with qrCodes := db.qrCodes ++ [qr] })

/-- JavaScript `Math.round` on the (nonnegative) values the summary produces:
round half away from zero, i.e. `⌊x + 1/2⌋` for `x ≥ 0`. -/
def jsRound (x : ℚ) : ℤ := ⌊x + 1 / 2⌋

/-- The summary block of GET /attendance/student. -/
structure StudentSummary where
  total : Nat
  present : Nat
  absent : Nat
  percentage : ℚ
deriving Repr, DecidableEq

/-- GET /attendance/student summary math: `totalClasses = attendances.length`,
`presentClasses` counts status PRESENT, the percentage is
`(present / total) * 100` guarded by `total > 0 ? ... : 0`, then
`Math.round(p * 100) / 100`; `absent = total - present`. Arithmetic is
modelled exactly over ℚ. -/
def studentAttendanceSummary (records : List AttendanceRecord) : StudentSummary :=
  let totalClasses := records.length
  let presentClasses := (records.filter (fun a => a.status == "PRESENT")).length
  let attendancePercentage : ℚ :=
    if totalClasses > 0 then ((presentClasses : ℚ) / (totalClasses : ℚ)) * 100 else 0
  { total := totalClasses
    present := presentClasses
    absent := totalClasses - presentClasses
    percentage := (jsRound (attendancePercentage * 100) : ℚ) / 100 }

/-- A User row: identity and role tag (roles are the strings `STUDENT`,
`TEACHER`, `ADMIN` in the source). -/
structure UserRec where
  id : String
  role : String
deriving Repr, DecidableEq

/-- A StudentProfile row: its own id (referenced by Enrollment/Attendance
`studentId` columns) and the owning user's id. -/
structure StudentProfile where
  id : String
  userId : String
deriving Repr, DecidableEq

/-- A TeacherProfile row. -/
structure TeacherProfile where
  id : String
  userId : String
deriving Repr, DecidableEq

/-- An AdminProfile row. -/
structure AdminProfile where
  id : String
  userId : String
deriving Repr, DecidableEq

/-- The slice of the store DELETE /users/:id touches. -/
structure SchoolDB where
  users : List UserRec
  studentProfiles : List StudentProfile
  teacherProfiles : List TeacherProfile
  adminProfiles : List AdminProfile
  enrollments : List Enrollment
  attendance : List AttendanceRecord
deriving Repr, DecidableEq

/-- Modelled from the spec: `prisma.user.delete` in DELETE /users/:id relies on
the cascade rules of the Prisma schema, which is not among the sources (only
this caller is). Per the spec, deleting a User cascades to its role profile
and all dependent Enrollments/AttendanceRecords: the user row, every profile
row owned by the user, and every enrollment/attendance row referencing a
student profile owned by the user are removed. -/
def cascadeDeleteUser (db : SchoolDB) (uid : String) : SchoolDB :=
  let spIds := (db.studentProfiles.filter (fun p => p.userId == uid)).map (fun p => p.id)
  { users := db.users.filter (fun u => !(u.id == uid))
    studentProfiles := db.studentProfiles.filter (fun p => !(p.userId == uid))
    teacherProfiles := db.teacherProfiles.filter (fun p => !(p.userId == uid))
    adminProfiles := db.adminProfiles.filter (fun p => !(p.userId == uid))
    enrollments := db.enrollments.filter (fun e => !(spIds.contains e.studentId))
    attendance := db.attendance.filter (fun a => !(spIds.contains a.studentId)) }

/-- Outcome of DELETE /users/:id. -/
inductive DeleteUserResult where
  /-- Status 404 "User not found". -/
  | notFound : DeleteUserResult
  /-- Status 200 "User deleted successfully". -/
  | deleted : DeleteUserResult
deriving Repr, DecidableEq

/-- DELETE /users/:id: `findUnique` the user, 404 when absent, else the
cascading `prisma.user.delete`. -/
def deleteUser (db : SchoolDB) (uid : String) : DeleteUserResult × SchoolDB :=
  match db.users.find? (fun u => u.id == uid) with
  | none => (DeleteUserResult.notFound, db)
  | some _ => (DeleteUserResult.deleted, cascadeDeleteUser db uid)

/-! ### Helper lemmas about the scan handler -/

/-- The already-marked `findFirst` succeeds exactly when some stored row of
this student and class has its timestamp inside the fixed-midnight window. -/
theorem hasRecordToday_iff (db : DB) (sid cid : String) (now : Nat) :
    hasRecordToday db sid cid now = true ↔
      ∃ a ∈ db.attendance, a.studentId = sid ∧ a.classId = cid ∧
        midnightOf now ≤ a.date ∧ a.date < midnightOf now + msPerDay := by
  simp [hasRecordToday, inTodayWindow, List.any_eq_true, and_assoc]

/-- Exhaustive classification of the scan handler: exactly one of the five
response branches fires, each together with the guard values that select it. -/
theorem scan_spec (db : DB) (sid code : String) (now : Nat) :
    (findQr db code = none ∧ scan db sid code now = (ScanResult.invalidQr, db)) ∨
    (∃ qr, findQr db code = some qr ∧
      ((qr.expiresAt < now ∧ scan db sid code now = (ScanResult.expired, db)) ∨
       (now ≤ qr.expiresAt ∧ isEnrolled db sid qr.classId = false ∧
         scan db sid code now = (ScanResult.notEnrolled, db)) ∨
       (now ≤ qr.expiresAt ∧ isEnrolled db sid qr.classId = true ∧
         hasRecordToday db sid qr.classId now = true ∧
         scan db sid code now = (ScanResult.alreadyMarked, db)) ∨
       (now ≤ qr.expiresAt ∧ isEnrolled db sid qr.classId = true ∧
         hasRecordToday db sid qr.classId now = false ∧
         scan db sid code now =
           (ScanResult.success ⟨sid, qr.classId, now, "PRESENT", some code⟩,
            { db with attendance :=
                db.attendance ++ [⟨sid, qr.classId, now, "PRESENT", some code⟩] })))) := by
  cases hf : findQr db code with
  | none => exact Or.inl ⟨rfl, by simp [scan, hf]⟩
  | some qr =>
    refine Or.inr ⟨qr, rfl, ?_⟩
    by_cases h1 : qr.expiresAt < now
    · exact Or.inl ⟨h1, by simp [scan, hf, h1]⟩
    · cases h2 : isEnrolled db sid qr.classId with
      | false =>
        exact Or.inr (Or.inl ⟨Nat.not_lt.mp h1, rfl, by simp [scan, hf, h1, h2]⟩)
      | true =>
        cases h3 : hasRecordToday db sid qr.classId now with
        | true =>
          exact Or.inr (Or.inr (Or.inl
            ⟨Nat.not_lt.mp h1, rfl, rfl, by simp [scan, hf, h1, h2, h3]⟩))
        | false =>
          exact Or.inr (Or.inr (Or.inr
            ⟨Nat.not_lt.mp h1, rfl, rfl, by simp [scan, hf, h1, h2, h3, scanInsert]⟩))

/-- A successful scan is exactly the read phase passing followed by the write
phase: the handler is an unserialized check-then-insert. -/
theorem scan_eq_phases (db : DB) (sid code : String) (now : Nat) (qr : QRCodeRec)
    (hfind : findQr db code = some qr)
    (hpass : scanCheckPasses db sid qr now = true) :
    scan db sid code now =
      (ScanResult.success (scanInsert db sid qr.classId now code).1,
       (scanInsert db sid qr.classId now code).2) := by
  simp only [scanCheckPasses, Bool.and_eq_true, Bool.not_eq_true',
    decide_eq_false_iff_not] at hpass
  obtain ⟨⟨h1, h2⟩, h3⟩ := hpass
  simp [scan, hfind, h1, h2, h3, scanInsert]

/-! ### Concrete sample state used by the witnesses -/

/-- A stored token for class `c1` expiring at t = 2000000 ms. -/
def qrSample : QRCodeRec := { code := "TOK1", classId := "c1", expiresAt := 2000000 }

/-- A store with one token, one enrollment (student `s1` in class `c1`) and no
attendance rows. -/
def dbSample : DB :=
  { qrCodes := [qrSample]
    enrollments := [{ studentId := "s1", classId := "c1" }]
    attendance := [] }

/-- The attendance row a successful scan of `TOK1` by `s1` at t = 1000 makes. -/
def attSample : AttendanceRecord :=
  { studentId := "s1", classId := "c1", date := 1000, status := "PRESENT"
    qrCode := some "TOK1" }

/-- A store like `dbSample` with a second enrolled student `s3`. -/
def dbSample2 : DB :=
  { qrCodes := [qrSample]
    enrollments := [{ studentId := "s1", classId := "c1" },
                    { studentId := "s3", classId := "c1" }]
    attendance := [] }

/-! ### Claim theorems -/

/-- C3: for every stored token, a scan strictly after `expiresAt` fails with
`Expired` and leaves the store unchanged (no AttendanceRecord is created),
while at or before `expiresAt` the expiry check passes: the response is never
`Expired`. -/
theorem scan_expired_iff_after_expiry (db : DB) (sid code : String) (now : Nat)
    (qr : QRCodeRec) (hfind : findQr db code = some qr) :
    (qr.expiresAt < now → scan db sid code now = (ScanResult.expired, db)) ∧
    (now ≤ qr.expiresAt → (scan db sid code now).1 ≠ ScanResult.expired) := by
  constructor
  · intro h
    simp [scan, hfind, h]
  · intro h
    rcases scan_spec db sid code now with ⟨hnone, -⟩ | ⟨qr', hq', hcase⟩
    · rw [hfind] at hnone; cases hnone
    · rw [hfind] at hq'
      injection hq' with hq'
      subst hq'
      rcases hcase with ⟨hlt, -⟩ | ⟨-, -, he⟩ | ⟨-, -, -, he⟩ | ⟨-, -, -, he⟩
      · exact absurd hlt (Nat.not_lt.mpr h)
      all_goals rw [he]; simp

/-- Witness for C3 at the sample store: the token is found, t = 2000001 is
strictly after its expiry, and the scan answers `Expired` without writing. -/
theorem scan_expired_iff_after_expiry_witness :
    findQr dbSample "TOK1" = some qrSample ∧ qrSample.expiresAt < 2000001 ∧
    scan dbSample "s1" "TOK1" 2000001 = (ScanResult.expired, dbSample) :=
  ⟨by decide, by decide,
    (scan_expired_iff_after_expiry dbSample "s1" "TOK1" 2000001 qrSample
      (by decide)).1 (by decide)⟩

/-- C4: with a valid, unexpired token, a scan by a student with no enrollment
row in the token's class fails with `NotEnrolled` and leaves the store
unchanged: no AttendanceRecord is created. -/
theorem scan_not_enrolled_rejected (db : DB) (sid code : String) (now : Nat)
    (qr : QRCodeRec) (hfind : findQr db code = some qr)
    (hexp : now ≤ qr.expiresAt)
    (henr : isEnrolled db sid qr.classId = false) :
    scan db sid code now = (ScanResult.notEnrolled, db) := by
  simp [scan, hfind, Nat.not_lt.mpr hexp, henr]

/-- Witness for C4: student `s2` has no enrollment in `c1`; scanning the live
token at t = 1000 answers `NotEnrolled` and the store is untouched. -/
theorem scan_not_enrolled_rejected_witness :
    findQr dbSample "TOK1" = some qrSample ∧
    isEnrolled dbSample "s2" qrSample.classId = false ∧
    scan dbSample "s2" "TOK1" 1000 = (ScanResult.notEnrolled, dbSample) :=
  ⟨by decide, by decide,
    scan_not_enrolled_rejected dbSample "s2" "TOK1" 1000 qrSample
      (by decide) (by decide) (by decide)⟩

/-- C2: the scan answers `AlreadyMarked` — and then writes nothing — exactly
when the token is found and unexpired, the student is enrolled, and some
attendance row of (student, token's class) already has its timestamp in the
window `[midnightOf now, midnightOf now + msPerDay)`: the fixed local-midnight
day of the request, not a rolling 24-hour window from a first check-in. -/
theorem scan_already_marked_iff (db : DB) (sid code : String) (now : Nat) :
    ((scan db sid code now).1 = ScanResult.alreadyMarked ↔
      ∃ qr, findQr db code = some qr ∧ now ≤ qr.expiresAt ∧
        isEnrolled db sid qr.classId = true ∧
        ∃ a ∈ db.attendance, a.studentId = sid ∧ a.classId = qr.classId ∧
          midnightOf now ≤ a.date ∧ a.date < midnightOf now + msPerDay) ∧
    ((scan db sid code now).1 = ScanResult.alreadyMarked →
      (scan db sid code now).2 = db) := by
  rcases scan_spec db sid code now with ⟨hnone, he⟩ | ⟨qr, hq, hcase⟩
  · rw [he]
    constructor
    · constructor
      · intro h; cases h
      · rintro ⟨qr, hq, -⟩; rw [hnone] at hq; cases hq
    · intro h; cases h
  · rcases hcase with ⟨hlt, he⟩ | ⟨hle, henr, he⟩ | ⟨hle, henr, hrec, he⟩ |
      ⟨hle, henr, hrec, he⟩
    · rw [he]
      constructor
      · constructor
        · intro h; cases h
        · rintro ⟨qr', hq', hle', -⟩
          rw [hq] at hq'; injection hq' with hq'; subst hq'
          exact absurd hlt (Nat.not_lt.mpr hle')
      · intro h; cases h
    · rw [he]
      constructor
      · constructor
        · intro h; cases h
        · rintro ⟨qr', hq', -, henr', -⟩
          rw [hq] at hq'; injection hq' with hq'; subst hq'
          rw [henr] at henr'; cases henr'
      · intro h; cases h
    · rw [he]
      refine ⟨⟨fun _ => ?_, fun _ => rfl⟩, fun _ => rfl⟩
      exact ⟨qr, hq, hle, henr, (hasRecordToday_iff db sid qr.classId now).mp hrec⟩
    · rw [he]
      constructor
      · constructor
        · intro h; cases h
        · rintro ⟨qr', hq', -, -, hwin⟩
          rw [hq] at hq'; injection hq' with hq'; subst hq'
          have : hasRecordToday db sid qr.classId now = true :=
            (hasRecordToday_iff db sid qr.classId now).mpr hwin
          rw [hrec] at this; cases this
      · intro h; cases h

/-- C5: every successful scan creates exactly one attendance row — appended to
the attendance table with the other tables untouched — whose status is
`PRESENT`, whose `date` is the redemption time, whose `qrCode` stores the
redeemed token string for audit, and whose class is the token's class. -/
theorem scan_success_creates_one (db : DB) (sid code : String) (now : Nat)
    (row : AttendanceRecord) (db' : DB)
    (h : scan db sid code now = (ScanResult.success row, db')) :
    row.studentId = sid ∧ row.status = "PRESENT" ∧ row.date = now ∧
    row.qrCode = some code ∧
    (∀ qr, findQr db code = some qr → row.classId = qr.classId) ∧
    db'.attendance = db.attendance ++ [row] ∧
    db'.qrCodes = db.qrCodes ∧ db'.enrollments = db.enrollments := by
  rcases scan_spec db sid code now with ⟨-, he⟩ | ⟨qr, hq, hcase⟩
  · rw [he] at h
    injection h with h1 h2; cases h1
  · rcases hcase with ⟨-, he⟩ | ⟨-, -, he⟩ | ⟨-, -, -, he⟩ | ⟨-, -, -, he⟩
    · rw [he] at h; injection h with h1 h2; cases h1
    · rw [he] at h; injection h with h1 h2; cases h1
    · rw [he] at h; injection h with h1 h2; cases h1
    · rw [he] at h
      injection h with h1 h2
      injection h1 with h1
      subst h1; subst h2
      refine ⟨rfl, rfl, rfl, rfl, ?_, rfl, rfl, rfl⟩
      intro qr' hq'
      rw [hq] at hq'; injection hq' with hq'; subst hq'; rfl

/-- Witness for C5: scanning `TOK1` as `s1` at t = 1000 succeeds, creating
exactly the row `attSample`, appended to the previously empty table. -/
theorem scan_success_creates_one_witness :
    scan dbSample "s1" "TOK1" 1000 =
      (ScanResult.success attSample, { dbSample with attendance := [attSample] }) ∧
    attSample.status = "PRESENT" ∧ attSample.date = 1000 ∧
    attSample.qrCode = some "TOK1" := by
  have h : scan dbSample "s1" "TOK1" 1000 =
      (ScanResult.success attSample, { dbSample with attendance := [attSample] }) := by
    decide
  have hc := scan_success_creates_one dbSample "s1" "TOK1" 1000 attSample
    { dbSample with attendance := [attSample] } h
  exact ⟨h, hc.2.1, hc.2.2.1, hc.2.2.2.1⟩

/-- C6: a token is not consumed by redemption. Two distinct enrolled students
who each scan the same still-active token, neither having a row for that class
today, both succeed: the second scan, run on the store the first one wrote,
still creates its own `PRESENT` row. -/
theorem scan_token_not_consumed (db : DB) (s1 s2 code : String) (t1 t2 : Nat)
    (qr : QRCodeRec) (hfind : findQr db code = some qr)
    (hexp1 : t1 ≤ qr.expiresAt) (hexp2 : t2 ≤ qr.expiresAt)
    (henr1 : isEnrolled db s1 qr.classId = true)
    (henr2 : isEnrolled db s2 qr.classId = true)
    (hm1 : hasRecordToday db s1 qr.classId t1 = false)
    (hm2 : hasRecordToday db s2 qr.classId t2 = false)
    (hne : s1 ≠ s2) :
    (scan db s1 code t1).1 =
      ScanResult.success ⟨s1, qr.classId, t1, "PRESENT", some code⟩ ∧
    (scan (scan db s1 code t1).2 s2 code t2).1 =
      ScanResult.success ⟨s2, qr.classId, t2, "PRESENT", some code⟩ := by
  have h1 : scan db s1 code t1 =
      (ScanResult.success ⟨s1, qr.classId, t1, "PRESENT", some code⟩,
       { db with attendance :=
          db.attendance ++ [⟨s1, qr.classId, t1, "PRESENT", some code⟩] }) := by
    simp [scan, hfind, Nat.not_lt.mpr hexp1, henr1, hm1, scanInsert]
  set db1 : DB :=
    { db with attendance :=
        db.attendance ++ [⟨s1, qr.classId, t1, "PRESENT", some code⟩] } with hdb1
  have hfind1 : findQr db1 code = some qr := hfind
  have henr2' : isEnrolled db1 s2 qr.classId = true := henr2
  have hm2' : hasRecordToday db1 s2 qr.classId t2 = false := by
    have hwin : inTodayWindow t2 ⟨s1, qr.classId, t1, "PRESENT", some code⟩ s2 qr.classId
        = false := by
      simp [inTodayWindow, hne]
    simp only [hasRecordToday] at hm2 ⊢
    rw [List.any_append]
    simp [hm2, hwin]
  refine ⟨by rw [h1], ?_⟩
  rw [h1]
  simp [scan, hfind1, Nat.not_lt.mpr hexp2, henr2', hm2', scanInsert]

/-- Witness for C6: students `s1` and `s3`, both enrolled in `c1`, scan the
live token `TOK1` at t = 1000 and t = 1500; both scans answer success. -/
theorem scan_token_not_consumed_witness :
    (scan dbSample2 "s1" "TOK1" 1000).1 =
      ScanResult.success ⟨"s1", "c1", 1000, "PRESENT", some "TOK1"⟩ ∧
    (scan (scan dbSample2 "s1" "TOK1" 1000).2 "s3" "TOK1" 1500).1 =
      ScanResult.success ⟨"s3", "c1", 1500, "PRESENT", some "TOK1"⟩ :=
  scan_token_not_consumed dbSample2 "s1" "s3" "TOK1" 1000 1500 qrSample
    (by decide) (by decide) (by decide) (by decide) (by decide)
    (by decide) (by decide) (by decide)

/-- C1: the already-marked guard is an unserialized application-level
read-then-write — `findFirst` then `create`, with no transaction and no
storage uniqueness constraint on (student, class, day) — so two interleaved
requests by the same student both pass the check against the same initial
state, both insert, and two attendance rows for the same (student, class,
calendar day) result. -/
theorem scan_check_then_insert_races :
    scanCheckPasses dbSample "s1" qrSample 1000 = true ∧
    scanCheckPasses dbSample "s1" qrSample 1001 = true ∧
    countToday ((scanInsert ((scanInsert dbSample "s1" "c1" 1000 "TOK1").2)
      "s1" "c1" 1001 "TOK1").2) "s1" "c1" 1001 = 2 := by
  decide

/-- C7: evaluated at a known wall-clock reading and `Math.random` output, the
token produced by generate-qr is literally the class id, the decimal
timestamp and the base-36 suffix joined by dashes — a timestamp
concatenation, fully determined (hence predictable) by the time and the
non-cryptographic PRNG state. -/
theorem generate_qr_is_timestamp_concat :
    generateQrData "c1" 1700000000000 "a1b2c3d4e" =
      "c1-" ++ toString 1700000000000 ++ "-a1b2c3d4e" ∧
    (issueQr dbSample "c1" 1700000000000 "a1b2c3d4e").1.code =
      "c1-1700000000000-a1b2c3d4e" := by
  constructor <;> rfl

/-- C9: the scan endpoint is guarded by `authorizeRoles('STUDENT')`: any
authenticated requester whose role is TEACHER or ADMIN is rejected with 403
before the handler body runs — no token lookup, enrollment check or record
creation happens and the store is unchanged. -/
theorem scan_endpoint_rejects_non_students (role : String) (db : DB)
    (sid code : String) (now : Nat)
    (h : role = "TEACHER" ∨ role = "ADMIN") :
    scanEndpoint role db sid code now = (ScanEndpointResult.forbidden, db) := by
  rcases h with h | h <;> subst h <;> rfl

/-- Witness for C9: a TEACHER-role request to /scan on the sample store is
answered 403 with the store untouched. -/
theorem scan_endpoint_rejects_non_students_witness :
    scanEndpoint "TEACHER" dbSample "s1" "TOK1" 1000 =
      (ScanEndpointResult.forbidden, dbSample) :=
  scan_endpoint_rejects_non_students "TEACHER" dbSample "s1" "TOK1" 1000 (Or.inl rfl)

/-- C10: the student summary never divides by zero — with no attendance rows
the reported percentage is exactly 0 — and otherwise the percentage is
(present / total) * 100 rounded to two decimals by `Math.round(p * 100) / 100`,
with absent reported as total minus present (present never exceeds total). -/
theorem student_summary_safe (records : List AttendanceRecord) :
    (studentAttendanceSummary records).present ≤ (studentAttendanceSummary records).total ∧
    (studentAttendanceSummary records).absent =
      (studentAttendanceSummary records).total - (studentAttendanceSummary records).present ∧
    (records = [] → (studentAttendanceSummary records).percentage = 0) ∧
    (records ≠ [] →
      (studentAttendanceSummary records).percentage =
        (jsRound ((((records.filter (fun a => a.status == "PRESENT")).length : ℚ) /
          (records.length : ℚ)) * 100 * 100) : ℚ) / 100) := by
  refine ⟨List.length_filter_le _ _, rfl, ?_, ?_⟩
  · intro h
    subst h
    norm_num [studentAttendanceSummary, jsRound]
  · intro h
    have hlen : 0 < records.length := List.length_pos.mpr h
    simp [studentAttendanceSummary, hlen]

/-- C8: for every existing user, DELETE /users/:id reports success and the
cascading delete leaves no row behind: no user row with that id, no role
profile owned by that user, and no enrollment or attendance row referencing a
student profile that belonged to that user. -/
theorem delete_user_removes_all (db : SchoolDB) (uid : String)
    (hu : (db.users.find? (fun x => x.id == uid)).isSome = true) :
    (deleteUser db uid).1 = DeleteUserResult.deleted ∧
    (∀ x ∈ (deleteUser db uid).2.users, x.id ≠ uid) ∧
    (∀ p ∈ (deleteUser db uid).2.studentProfiles, p.userId ≠ uid) ∧
    (∀ p ∈ (deleteUser db uid).2.teacherProfiles, p.userId ≠ uid) ∧
    (∀ p ∈ (deleteUser db uid).2.adminProfiles, p.userId ≠ uid) ∧
    (∀ e ∈ (deleteUser db uid).2.enrollments, ∀ p ∈ db.studentProfiles,
        p.userId = uid → e.studentId ≠ p.id) ∧
    (∀ a ∈ (deleteUser db uid).2.attendance, ∀ p ∈ db.studentProfiles,
        p.userId = uid → a.studentId ≠ p.id) := by
  obtain ⟨u, hu'⟩ := Option.isSome_iff_exists.mp hu
  simp only [deleteUser, hu']
  refine ⟨trivial, ?_, ?_, ?_, ?_, ?_, ?_⟩
  · intro x hx
    simp only [cascadeDeleteUser, List.mem_filter, Bool.not_eq_true',
      beq_eq_false_iff_ne, ne_eq] at hx
    exact hx.2
  · intro p hp
    simp only [cascadeDeleteUser, List.mem_filter, Bool.not_eq_true',
      beq_eq_false_iff_ne, ne_eq] at hp
    exact hp.2
  · intro p hp
    simp only [cascadeDeleteUser, List.mem_filter, Bool.not_eq_true',
      beq_eq_false_iff_ne, ne_eq] at hp
    exact hp.2
  · intro p hp
    simp only [cascadeDeleteUser, List.mem_filter, Bool.not_eq_true',
      beq_eq_false_iff_ne, ne_eq] at hp
    exact hp.2
  · intro e he p hp hpu heq
    simp only [cascadeDeleteUser, List.mem_filter, Bool.not_eq_true'] at he
    have hnot : e.studentId ∉
        (db.studentProfiles.filter (fun p => p.userId == uid)).map (fun p => p.id) := by
      simpa using he.2
    apply hnot
    simp only [List.mem_map, List.mem_filter]
    exact ⟨p, ⟨hp, by simp [hpu]⟩, heq.symm⟩
  · intro a ha p hp hpu heq
    simp only [cascadeDeleteUser, List.mem_filter, Bool.not_eq_true'] at ha
    have hnot : a.studentId ∉
        (db.studentProfiles.filter (fun p => p.userId == uid)).map (fun p => p.id) := by
      simpa using ha.2
    apply hnot
    simp only [List.mem_map, List.mem_filter]
    exact ⟨p, ⟨hp, by simp [hpu]⟩, heq.symm⟩

/-- A store for the delete-user witness: a student user `u1` with profile
`sp1`, one enrollment and one attendance row, beside an unrelated teacher. -/
def schoolDbSample : SchoolDB :=
  { users := [{ id := "u1", role := "STUDENT" }, { id := "u2", role := "TEACHER" }]
    studentProfiles := [{ id := "sp1", userId := "u1" }]
    teacherProfiles := [{ id := "tp1", userId := "u2" }]
    adminProfiles := []
    enrollments := [{ studentId := "sp1", classId := "c1" }]
    attendance := [{ studentId := "sp1", classId := "c1", date := 1000,
                     status := "PRESENT", qrCode := none }] }

/-- Witness for C8: deleting `u1` from the sample store reports success. -/
theorem delete_user_removes_all_witness :
    (deleteUser schoolDbSample "u1").1 = DeleteUserResult.deleted :=
  (delete_user_removes_all schoolDbSample "u1" (by decide)).1
